import Mathlib

/-!
Shallow embedding of the ButtonStim visual stimulus (src/src/visual/ButtonStim.js) and
of its external collaborators (the pointer listener and the per-frame edge-detection
driver, which are described by the specification but whose source files are not part of
the provided sources).  The development then settles the specification claims about the
click-history state machine, the reset operation and the content-derived multiline flag.
-/

/-- A JavaScript value supplied as the text option of a ButtonStim: a string, the
undefined value (option omitted), or some value of a non-string type.  Only the
distinction a JavaScript typeof check can see is relevant to the code. -/
inductive JSText where
  | str (s : String)
  | undef
  | nonString
deriving DecidableEq, Repr

/-- Embeds the JavaScript guard typeof text === 'string'. -/
def JSText.isString : JSText → Bool
  | JSText.str _ => true
  | _ => false

/-- Embeds the expression from the ButtonStim constructor (line 98 of ButtonStim.js):
typeof text === 'string' && text.includes('\n') ? true : false.
For a string it asks whether a line-break character occurs among its characters (the
searched-for string is the single character '\n', so includes amounts to a character
search); for any non-string value the typeof guard short-circuits to false. -/
def multilineFromText : JSText → Bool
  | JSText.str s => s.data.any (fun c => c == '\n')
  | JSText.undef => false
  | JSText.nonString => false

/-- Modelled from the spec: the state of the PointerListener (the Mouse collaborator;
src/core/Mouse.js is not among the provided sources).  It continuously tracks whether
each of the three pointer buttons is pressed and whether the pointer is currently over
the control's label. -/
structure ListenerState where
  primaryPressed : Bool
  secondaryPressed : Bool
  tertiaryPressed : Bool
  pointerOver : Bool
deriving DecidableEq, Repr

/-- Modelled from the spec: Mouse.isPressedIn, which answers whether one of the buttons
selected by the mask is currently pressed while the pointer is over the stimulus.  The
mask [1, 0, 0] used by ButtonStim selects the primary button only. -/
def ListenerState.isPressedIn (l : ListenerState) (mask : List Nat) : Bool :=
  l.pointerOver &&
    ((mask.getD 0 0 != 0 && l.primaryPressed) ||
     (mask.getD 1 0 != 0 && l.secondaryPressed) ||
     (mask.getD 2 0 != 0 && l.tertiaryPressed))

/-- The options record accepted by the ButtonStim constructor (its destructured
parameter list, with the source's default values: anchor "center", fillColor
"darkgrey", borderWidth 0, bold true).  Opaque pass-through values are typed as
Option String; an absent option is none (undefined). -/
structure ButtonOptions where
  win : Option String := none
  name : Option String := none
  text : JSText := JSText.undef
  font : Option String := none
  pos : Option String := none
  size : Option String := none
  padding : Option String := none
  anchor : String := "center"
  units : Option String := none
  color : Option String := none
  fillColor : String := "darkgrey"
  borderColor : Option String := none
  borderWidth : Nat := 0
  opacity : Option String := none
  depth : Option String := none
  letterHeight : Option String := none
  bold : Bool := true
  italic : Option Bool := none
  autoDraw : Option Bool := none
  autoLog : Option Bool := none
  boxFn : Option String := none
  multiline : Option Bool := none
deriving DecidableEq, Repr

/-- The state of the underlying renderable label (the TextBox superclass part of a
ButtonStim), holding exactly the options the ButtonStim constructor forwards in its
super call.  The editState field is modelled from the spec: it stands for the editing
state (cursor/selection) that the label's own reset behavior clears; TextBox.js is not
among the provided sources. -/
structure Label where
  text : JSText
  placeholder : JSText
  font : Option String
  pos : Option String
  size : Option String
  padding : Option String
  anchor : String
  units : Option String
  color : Option String
  fillColor : String
  borderColor : Option String
  borderWidth : Nat
  opacity : Option String
  depth : Option String
  letterHeight : Option String
  multiline : Bool
  bold : Bool
  italic : Option Bool
  alignment : String
  autoDraw : Option Bool
  autoLog : Option Bool
  boxFn : Option String
  editState : Nat
deriving DecidableEq, Repr

/-- The observable state of a ButtonStim: the label built by the super call (with the
multiline attribute it ends up holding), the owned pointer listener, and the
click-history attributes wasClicked, timesOn and timesOff.  Timestamps are naturals. -/
structure ButtonStim where
  label : Label
  listener : ListenerState
  wasClicked : Bool
  timesOn : List Nat
  timesOff : List Nat
deriving DecidableEq, Repr

/-- The ButtonStim constructor (lines 43-139 of ButtonStim.js): the super call builds
the label from the options, forwarding the text also as the placeholder, forcing
alignment to "center", and giving the multiline attribute the caller's flag (TextBox
defaults it to false, per the comment at lines 95-97); immediately afterwards the
constructor overrides the label's multiline attribute from the text content alone.
The listener is a freshly constructed Mouse, whose current state is the parameter l;
wasClicked, timesOn and timesOff are initialized to false, [] and []. -/
def ButtonStim.construct (opts : ButtonOptions) (l : ListenerState) : ButtonStim :=
  let lbl : Label :=
    { text := opts.text
      placeholder := opts.text
      font := opts.font
      pos := opts.pos
      size := opts.size
      padding := opts.padding
      anchor := opts.anchor
      units := opts.units
      color := opts.color
      fillColor := opts.fillColor
      borderColor := opts.borderColor
      borderWidth := opts.borderWidth
      opacity := opts.opacity
      depth := opts.depth
      letterHeight := opts.letterHeight
      multiline := opts.multiline.getD false
      bold := opts.bold
      italic := opts.italic
      alignment := "center"
      autoDraw := opts.autoDraw
      autoLog := opts.autoLog
      boxFn := opts.boxFn
      editState := 0 }
  { label := { lbl with multiline := multilineFromText opts.text }
    listener := l
    wasClicked := false
    timesOn := []
    timesOff := [] }

/-- The numClicks getter (lines 146-149): the length of timesOn. -/
def ButtonStim.numClicks (b : ButtonStim) : Nat :=
  b.timesOn.length

/-- The isClicked getter (lines 156-159): delegates to
this.listener.isPressedIn(this, [1, 0, 0]). -/
def ButtonStim.isClicked (b : ButtonStim) : Bool :=
  b.listener.isPressedIn [1, 0, 0]

/-- Modelled from the spec: the reset behavior of the underlying renderable label
(TextBox.reset, invoked as super.reset(); TextBox.js is not among the provided
sources).  It clears the label's editing state and touches no other label field. -/
def Label.resetLabel (l : Label) : Label :=
  { l with editState := 0 }

/-- The reset method (lines 166-173): capture wasClicked = isClicked, clear timesOn and
timesOff to empty arrays, then invoke the label's own reset behavior. -/
def ButtonStim.reset (b : ButtonStim) : ButtonStim :=
  let b1 := { b with wasClicked := b.isClicked }
  let b2 := { b1 with timesOn := ([] : List Nat), timesOff := ([] : List Nat) }
  { b2 with label := b2.label.resetLabel }

/-- Modelled from the spec: the per-frame edge-detection driver, an external
collaborator (the frame-loop code that polls the listener every frame; it is not among
the provided sources).  Each frame it samples the listener once; a not-pressed to
pressed transition appends the frame time to timesOn, a pressed to not-pressed
transition appends it to timesOff.  The previous frame's pressed state is kept in
wasClicked, which is exactly what reset re-synchronizes to the current isClicked. -/
def ButtonStim.frameUpdate (b : ButtonStim) (t : Nat) (l : ListenerState) : ButtonStim :=
  let b1 := { b with listener := l }
  if b1.isClicked && !b.wasClicked then
    { b1 with timesOn := b.timesOn ++ [t], wasClicked := true }
  else if !b1.isClicked && b.wasClicked then
    { b1 with timesOff := b.timesOff ++ [t], wasClicked := false }
  else b1

/-- A listener state with no button pressed and the pointer away from the control. -/
def idleListener : ListenerState :=
  { primaryPressed := false, secondaryPressed := false, tertiaryPressed := false,
    pointerOver := false }

/-- A listener state with the primary button pressed while the pointer is over the
control's label. -/
def pressedListener : ListenerState :=
  { primaryPressed := true, secondaryPressed := false, tertiaryPressed := false,
    pointerOver := true }

/-- The states a ButtonStim can be observed in: freshly constructed, after a frame
update of the edge-detection driver with non-decreasing frame times, or after a
reset() call.  The natural number is the latest frame time seen so far; frame times
never decrease across frames. -/
inductive Reachable : ButtonStim → Nat → Prop
  | init (opts : ButtonOptions) (l : ListenerState) :
      Reachable (ButtonStim.construct opts l) 0
  | frame (b : ButtonStim) (t0 t : Nat) (l : ListenerState) :
      Reachable b t0 → t0 ≤ t → Reachable (b.frameUpdate t l) t
  | reset (b : ButtonStim) (t0 : Nat) :
      Reachable b t0 → Reachable b.reset t0

/-- Reachability restricted to runs in which every reset() call happens while the
control is not pressed. -/
inductive ReachableIdleReset : ButtonStim → Nat → Prop
  | init (opts : ButtonOptions) (l : ListenerState) :
      ReachableIdleReset (ButtonStim.construct opts l) 0
  | frame (b : ButtonStim) (t0 t : Nat) (l : ListenerState) :
      ReachableIdleReset b t0 → t0 ≤ t → ReachableIdleReset (b.frameUpdate t l) t
  | reset (b : ButtonStim) (t0 : Nat) :
      ReachableIdleReset b t0 → b.isClicked = false → ReachableIdleReset b.reset t0

/-- The click-history invariant maintained by the edge-detection driver: the press
list is exactly one longer than the release list while a press is being tracked
(wasClicked) and of equal length otherwise; both lists are non-decreasing and bounded
by the latest frame time. -/
def histInv (b : ButtonStim) (t0 : Nat) : Prop :=
  b.timesOn.length = b.timesOff.length + (if b.wasClicked then 1 else 0)
  ∧ List.Chain' (· ≤ ·) b.timesOn
  ∧ List.Chain' (· ≤ ·) b.timesOff
  ∧ (∀ x ∈ b.timesOn, x ≤ t0)
  ∧ (∀ x ∈ b.timesOff, x ≤ t0)

lemma chain_le_append (l : List Nat) (t : Nat) (hc : List.Chain' (· ≤ ·) l)
    (hb : ∀ x ∈ l, x ≤ t) : List.Chain' (· ≤ ·) (l ++ [t]) := by
  induction l with
  | nil => simp
  | cons a l ih =>
    rcases l with _ | ⟨c, l⟩
    · simpa using hb a (by simp)
    · simp only [List.cons_append] at ih ⊢
      rw [List.chain'_cons] at hc ⊢
      exact ⟨hc.1, ih hc.2 (fun x hx => hb x (List.mem_cons_of_mem a hx))⟩

lemma frameUpdate_press {b : ButtonStim} {t : Nat} {l : ListenerState}
    (hw : b.wasClicked = false) (hn : l.isPressedIn [1, 0, 0] = true) :
    b.frameUpdate t l =
      { b with listener := l, timesOn := b.timesOn ++ [t], wasClicked := true } := by
  simp [ButtonStim.frameUpdate, ButtonStim.isClicked, hw, hn]

lemma frameUpdate_release {b : ButtonStim} {t : Nat} {l : ListenerState}
    (hw : b.wasClicked = true) (hn : l.isPressedIn [1, 0, 0] = false) :
    b.frameUpdate t l =
      { b with listener := l, timesOff := b.timesOff ++ [t], wasClicked := false } := by
  simp [ButtonStim.frameUpdate, ButtonStim.isClicked, hw, hn]

lemma frameUpdate_noEdge {b : ButtonStim} {t : Nat} {l : ListenerState}
    (h : l.isPressedIn [1, 0, 0] = b.wasClicked) :
    b.frameUpdate t l = { b with listener := l } := by
  cases hw : b.wasClicked <;>
    simp [ButtonStim.frameUpdate, ButtonStim.isClicked, h, hw]

lemma histInv_construct (opts : ButtonOptions) (l : ListenerState) :
    histInv (ButtonStim.construct opts l) 0 := by
  simp [histInv, ButtonStim.construct]

lemma histInv_frameUpdate {b : ButtonStim} {t0 : Nat} (h : histInv b t0)
    (t : Nat) (ht : t0 ≤ t) (l : ListenerState) :
    histInv (b.frameUpdate t l) t := by
  obtain ⟨hlen, hcOn, hcOff, hbOn, hbOff⟩ := h
  have hbOn' : ∀ x ∈ b.timesOn, x ≤ t := fun x hx => le_trans (hbOn x hx) ht
  have hbOff' : ∀ x ∈ b.timesOff, x ≤ t := fun x hx => le_trans (hbOff x hx) ht
  have hOnApp : ∀ x ∈ b.timesOn ++ [t], x ≤ t := by
    intro x hx
    rcases List.mem_append.mp hx with hx | hx
    · exact hbOn' x hx
    · simp at hx; omega
  have hOffApp : ∀ x ∈ b.timesOff ++ [t], x ≤ t := by
    intro x hx
    rcases List.mem_append.mp hx with hx | hx
    · exact hbOff' x hx
    · simp at hx; omega
  cases hw : b.wasClicked <;> cases hn : ListenerState.isPressedIn l [1, 0, 0]
  · rw [frameUpdate_noEdge (by rw [hn, hw])]
    refine ⟨?_, hcOn, hcOff, hbOn', hbOff'⟩
    rw [hw] at hlen
    simpa [hw] using hlen
  · rw [frameUpdate_press hw hn]
    refine ⟨?_, chain_le_append _ t hcOn hbOn', hcOff, hOnApp, hbOff'⟩
    rw [hw] at hlen
    simp at hlen
    simp [hlen]
  · rw [frameUpdate_release hw hn]
    refine ⟨?_, hcOn, chain_le_append _ t hcOff hbOff', hbOn', hOffApp⟩
    rw [hw] at hlen
    simp at hlen
    simp [hlen]
  · rw [frameUpdate_noEdge (by rw [hn, hw])]
    refine ⟨?_, hcOn, hcOff, hbOn', hbOff'⟩
    rw [hw] at hlen
    simpa [hw] using hlen

lemma histInv_reset {b : ButtonStim} {t0 : Nat} (hidle : b.isClicked = false) :
    histInv b.reset t0 := by
  simp [histInv, ButtonStim.reset, hidle]

lemma reachableIdleReset_histInv {b : ButtonStim} {t0 : Nat}
    (h : ReachableIdleReset b t0) : histInv b t0 := by
  induction h with
  | init opts l => exact histInv_construct opts l
  | frame b t0 t l _ ht ih => exact histInv_frameUpdate ih t ht l
  | reset b t0 _ hidle _ => exact histInv_reset hidle

/-- A run that presses at time 0 and releases at time 1, with no reset. -/
def sampleRun : ButtonStim :=
  ((ButtonStim.construct { text := JSText.str "Click me" } idleListener).frameUpdate 0
      pressedListener).frameUpdate 1 idleListener

/-- A run that presses at time 0, resets while the button is still pressed, and then
releases at time 1. -/
def pressedResetRun : ButtonStim :=
  (((ButtonStim.construct { text := JSText.str "Click me" } idleListener).frameUpdate 0
      pressedListener).reset).frameUpdate 1 idleListener

/-- Claim C1: for every construction of a ButtonStim, the resulting layout mode is
multiline if and only if the supplied text is a string containing at least one
line-break character, and any explicit multiline flag supplied by the caller (some
true, some false, or omitted) is overridden by this content-derived rule. -/
theorem construct_multiline_iff_newline (opts : ButtonOptions) (l : ListenerState) :
    ((ButtonStim.construct opts l).label.multiline = true ↔
      ∃ s, opts.text = JSText.str s ∧ s.data.any (fun c => c == '\n') = true)
    ∧ ∀ m : Option Bool,
        (ButtonStim.construct { opts with multiline := m } l).label.multiline
          = (ButtonStim.construct opts l).label.multiline := by
  constructor
  · show multilineFromText opts.text = true ↔ _
    cases htext : opts.text with
    | str s => simp [multilineFromText, htext]
    | undef => simp [multilineFromText, htext]
    | nonString => simp [multilineFromText, htext]
  · intro m
    rfl

/-- Claim C2: reset captures wasClicked as the value of isClicked immediately before
the call, clears timesOn and timesOff to empty sequences, and leaves the label in the
state produced by the label's own reset behavior; as a total function of the state it
never raises an error. -/
theorem reset_captures_and_clears (b : ButtonStim) :
    (b.reset).wasClicked = b.isClicked
    ∧ (b.reset).timesOn = []
    ∧ (b.reset).timesOff = []
    ∧ (b.reset).label = b.label.resetLabel :=
  ⟨rfl, rfl, rfl, rfl⟩

/-- Claim C3: numClicks returns exactly the length of timesOn; being a pure function
of the state (a Lean function out of ButtonStim, not into it) it has no side effects,
and its value is a natural number, hence non-negative. -/
theorem numClicks_eq_length_timesOn (b : ButtonStim) :
    b.numClicks = b.timesOn.length :=
  rfl

/-- Claim C4: calling reset twice consecutively with no intervening click yields the
same observable state after the second call as after the first — timesOn and timesOff
are empty and wasClicked is unchanged by the second call; indeed the two states are
equal. -/
theorem reset_idempotent (b : ButtonStim) :
    (b.reset.reset).timesOn = []
    ∧ (b.reset.reset).timesOff = []
    ∧ (b.reset.reset).wasClicked = (b.reset).wasClicked
    ∧ b.reset.reset = b.reset :=
  ⟨rfl, rfl, rfl, rfl⟩

/-- Claim C5: isClicked returns exactly the listener's answer for the button mask
[1, 0, 0]: true precisely when the primary button is pressed while the pointer is over
the control's label, with the secondary and tertiary buttons ignored; as a pure
function of the state it has no side effects and appends nothing to timesOn or
timesOff. -/
theorem isClicked_primary_button_only (b : ButtonStim) :
    b.isClicked = b.listener.isPressedIn [1, 0, 0]
    ∧ b.isClicked = (b.listener.pointerOver && b.listener.primaryPressed) := by
  refine ⟨rfl, ?_⟩
  rcases b with ⟨lbl, ⟨p, s2, t3, ov⟩, w, onL, offL⟩
  cases p <;> cases ov <;> rfl

/-- Claim C6 (amended): at every observation point reached through construction,
frame updates of the edge-detection driver with non-decreasing frame times, and reset
calls made while the control is not pressed, the release list is at most as long as
the press list, the press list is at most one longer, and both timestamp lists are
non-decreasing. -/
theorem click_history_invariant {b : ButtonStim} {t0 : Nat}
    (h : ReachableIdleReset b t0) :
    b.timesOff.length ≤ b.timesOn.length
    ∧ b.timesOn.length ≤ b.timesOff.length + 1
    ∧ List.Chain' (· ≤ ·) b.timesOn
    ∧ List.Chain' (· ≤ ·) b.timesOff := by
  obtain ⟨hlen, hcOn, hcOff, _, _⟩ := reachableIdleReset_histInv h
  refine ⟨?_, ?_, hcOn, hcOff⟩ <;>
    (cases hw : b.wasClicked <;> rw [hw] at hlen <;> simp at hlen <;> omega)

/-- Claim C6, witness: the invariant evaluated on the concrete run that presses at
time 0 and releases at time 1. -/
theorem click_history_invariant_witness :
    sampleRun.timesOff.length ≤ sampleRun.timesOn.length
    ∧ sampleRun.timesOn.length ≤ sampleRun.timesOff.length + 1
    ∧ List.Chain' (· ≤ ·) sampleRun.timesOn
    ∧ List.Chain' (· ≤ ·) sampleRun.timesOff :=
  click_history_invariant
    (ReachableIdleReset.frame _ 0 1 idleListener
      (ReachableIdleReset.frame _ 0 0 pressedListener
        (ReachableIdleReset.init { text := JSText.str "Click me" } idleListener)
        (Nat.le_refl 0))
      (by omega))

/-- Claim C6, counterexample to the unamended statement: pressing at time 0, calling
reset while the button is still pressed, and releasing at time 1 is a run of the
frame-update path interleaved with a reset, yet it leaves the release list strictly
longer than the press list. -/
theorem click_history_counterexample :
    Reachable pressedResetRun 1
    ∧ pressedResetRun.timesOn.length = 0
    ∧ pressedResetRun.timesOff.length = 1
    ∧ ¬ (pressedResetRun.timesOff.length ≤ pressedResetRun.timesOn.length) := by
  refine ⟨?_, by decide, by decide, by decide⟩
  exact Reachable.frame _ 0 1 idleListener
    (Reachable.reset _ 0
      (Reachable.frame _ 0 0 pressedListener
        (Reachable.init { text := JSText.str "Click me" } idleListener)
        (Nat.le_refl 0)))
    (by omega)

/-- Claim C7: for every construction, the underlying label is built with text
alignment forced to "center" (the constructor accepts no alignment option at all),
and the supplied text is forwarded both as the rendered text and as the placeholder
text. -/
theorem construct_label_centered (opts : ButtonOptions) (l : ListenerState) :
    (ButtonStim.construct opts l).label.alignment = "center"
    ∧ (ButtonStim.construct opts l).label.text = opts.text
    ∧ (ButtonStim.construct opts l).label.placeholder = opts.text :=
  ⟨rfl, rfl, rfl⟩

/-- Claim C8: immediately after construction wasClicked is false and both timestamp
lists are empty, hence numClicks is 0; concretely, a control constructed with text
"Click me", all other options left at their defaults, and an idle pointer has
numClicks 0, isClicked false and single-line layout mode. -/
theorem construct_initial_state (opts : ButtonOptions) (l : ListenerState) :
    (ButtonStim.construct opts l).wasClicked = false
    ∧ (ButtonStim.construct opts l).timesOn = []
    ∧ (ButtonStim.construct opts l).timesOff = []
    ∧ (ButtonStim.construct opts l).numClicks = 0
    ∧ (ButtonStim.construct { text := JSText.str "Click me" } idleListener).numClicks = 0
    ∧ (ButtonStim.construct { text := JSText.str "Click me" } idleListener).isClicked = false
    ∧ (ButtonStim.construct { text := JSText.str "Click me" } idleListener).label.multiline
        = false := by
  refine ⟨rfl, rfl, rfl, rfl, rfl, rfl, by decide⟩

/-- Claim C9: reset changes only wasClicked, timesOn and timesOff, plus what the
delegated label reset changes; the listener, the label's text, placeholder, styling,
geometry and derived layout mode are unchanged, and the pressed state reported
through isClicked is not altered. -/
theorem reset_preserves_everything_else (b : ButtonStim) :
    (b.reset).listener = b.listener
    ∧ (b.reset).isClicked = b.isClicked
    ∧ (b.reset).label.text = b.label.text
    ∧ (b.reset).label.placeholder = b.label.placeholder
    ∧ (b.reset).label.alignment = b.label.alignment
    ∧ (b.reset).label.multiline = b.label.multiline
    ∧ (b.reset).label.font = b.label.font
    ∧ (b.reset).label.pos = b.label.pos
    ∧ (b.reset).label.size = b.label.size
    ∧ (b.reset).label.padding = b.label.padding
    ∧ (b.reset).label.anchor = b.label.anchor
    ∧ (b.reset).label.units = b.label.units
    ∧ (b.reset).label.color = b.label.color
    ∧ (b.reset).label.fillColor = b.label.fillColor
    ∧ (b.reset).label.borderColor = b.label.borderColor
    ∧ (b.reset).label.borderWidth = b.label.borderWidth
    ∧ (b.reset).label.opacity = b.label.opacity
    ∧ (b.reset).label.depth = b.label.depth
    ∧ (b.reset).label.letterHeight = b.label.letterHeight
    ∧ (b.reset).label.bold = b.label.bold
    ∧ (b.reset).label.italic = b.label.italic
    ∧ (b.reset).label.boxFn = b.label.boxFn :=
  ⟨rfl, rfl, rfl, rfl, rfl, rfl, rfl, rfl, rfl, rfl, rfl, rfl, rfl, rfl, rfl, rfl,
    rfl, rfl, rfl, rfl, rfl, rfl⟩

/-- Claim C10: when the text option is omitted (undefined) or is not a string, the
typeof guard short-circuits the content inspection, the multiline derivation is a
total computation that cannot fail, and the resulting layout mode is single-line. -/
theorem construct_nonstring_text_single_line (opts : ButtonOptions) (l : ListenerState)
    (h : opts.text.isString = false) :
    (ButtonStim.construct opts l).label.multiline = false := by
  show multilineFromText opts.text = false
  cases htext : opts.text with
  | str s => rw [htext] at h; simp [JSText.isString] at h
  | undef => rfl
  | nonString => rfl

/-- Claim C10, witness: constructing with the text option omitted (the default
options record) yields single-line layout mode. -/
theorem construct_nonstring_text_single_line_witness :
    (JSText.undef.isString = false)
    ∧ (ButtonStim.construct {} idleListener).label.multiline = false :=
  ⟨rfl, construct_nonstring_text_single_line {} idleListener rfl⟩
